import Mathlib

/-!
Shallow embedding of the `auth0grant` Go package (repository
`ereyes01/go-auth0-grant`, file `grant.go`): a client-side cache of an OAuth2
client-credentials grant.

Modelling conventions:
* Go `time.Time` instants and `time.Duration` values are both `Int` counts of
  nanoseconds (`time.Second = 1000000000`); `Time.Add` is `+` and `Time.After`
  is strict `>`, as in the Go standard library.
* The injected time source `nowFn` is modelled by an explicit `now : Int`
  argument: every call the operation makes to `nowFn` returns `now`
  (the tests inject constant clocks, so this is exact for them).
* `http.Post` is modelled by a `Transport` function from the request to either
  a transport-level error message or a response; the list of requests the
  operation hands to the transport is returned alongside the result.
* `encoding/json` on the two fixed shapes is modelled executably:
  `json.Marshal` of `CredentialsRequest` (a struct of four plain strings, on
  which Go's marshaller never errors) emits the object in struct-field order,
  and `json.Decoder.Decode` into `clientCredsGrant` is a small JSON parser
  followed by field assignment with Go's rules: unknown keys ignored, missing
  keys keep the zero value, `null` leaves the field unchanged, a type mismatch
  is an error, duplicate keys take the last value.  (Go additionally
  case-folds keys and HTML-escapes `<`, `>`, `&` on output; none of the
  properties below depend on those corners.)
-/

/-- JSON values, for decoding the token-endpoint response body. -/
inductive JsonValue where
  | str (s : String)
  | num (n : Int)
  | bool (b : Bool)
  | null
  | arr (elems : List JsonValue)
  | obj (fields : List (String × JsonValue))

/-- Drop leading JSON whitespace. -/
def jsonSkipWs : List Char → List Char
  | c :: cs =>
    if c = ' ' ∨ c = '\n' ∨ c = '\t' ∨ c = '\r' then jsonSkipWs cs else c :: cs
  | [] => []

/-- Parse the remainder of a JSON string literal (the opening quote already
consumed), returning the decoded string and the rest of the input. -/
def jsonParseStringRest : List Char → Option (String × List Char)
  | [] => none
  | '"' :: cs => some ("", cs)
  | '\\' :: e :: cs =>
    match
      (if e = '"' then some '"'
       else if e = '\\' then some '\\'
       else if e = '/' then some '/'
       else if e = 'n' then some '\n'
       else if e = 't' then some '\t'
       else if e = 'r' then some '\r'
       else none) with
    | some c =>
      match jsonParseStringRest cs with
      | some (s, rest) => some (String.singleton c ++ s, rest)
      | none => none
    | none => none
  | c :: cs =>
    match jsonParseStringRest cs with
    | some (s, rest) => some (String.singleton c ++ s, rest)
    | none => none

/-- Split off a maximal run of decimal digits. -/
def jsonTakeDigits : List Char → (List Char × List Char)
  | [] => ([], [])
  | c :: cs =>
    if c.isDigit then
      match jsonTakeDigits cs with
      | (ds, rest) => (c :: ds, rest)
    else ([], c :: cs)

/-- Value of a digit run. -/
def jsonDigitsVal (ds : List Char) : Int :=
  ds.foldl (fun acc c => acc * 10 + (Int.ofNat (c.toNat - '0'.toNat))) 0

/-- Parse a JSON integer (optional minus sign followed by digits). -/
def jsonParseNumber (cs : List Char) : Option (Int × List Char) :=
  match cs with
  | '-' :: cs' =>
    match jsonTakeDigits cs' with
    | ([], _) => none
    | (ds, rest) => some (-(jsonDigitsVal ds), rest)
  | _ =>
    match jsonTakeDigits cs with
    | ([], _) => none
    | (ds, rest) => some (jsonDigitsVal ds, rest)

mutual

/-- Parse one JSON value; `fuel` bounds the nesting depth. -/
def jsonParseValue : Nat → List Char → Option (JsonValue × List Char)
  | 0, _ => none
  | fuel + 1, cs =>
    match jsonSkipWs cs with
    | '"' :: cs' =>
      match jsonParseStringRest cs' with
      | some (s, rest) => some (.str s, rest)
      | none => none
    | 't' :: 'r' :: 'u' :: 'e' :: cs' => some (.bool true, cs')
    | 'f' :: 'a' :: 'l' :: 's' :: 'e' :: cs' => some (.bool false, cs')
    | 'n' :: 'u' :: 'l' :: 'l' :: cs' => some (.null, cs')
    | '{' :: cs' =>
      match jsonSkipWs cs' with
      | '}' :: rest => some (.obj [], rest)
      | cs'' =>
        match jsonParseMembers fuel cs'' with
        | some (fields, rest) => some (.obj fields, rest)
        | none => none
    | '[' :: cs' =>
      match jsonSkipWs cs' with
      | ']' :: rest => some (.arr [], rest)
      | cs'' =>
        match jsonParseElems fuel cs'' with
        | some (elems, rest) => some (.arr elems, rest)
        | none => none
    | cs' =>
      match jsonParseNumber cs' with
      | some (n, rest) => some (.num n, rest)
      | none => none

/-- Parse one or more `"key": value` members followed by `\x7d`. -/
def jsonParseMembers : Nat → List Char → Option (List (String × JsonValue) × List Char)
  | 0, _ => none
  | fuel + 1, cs =>
    match jsonSkipWs cs with
    | '"' :: cs' =>
      match jsonParseStringRest cs' with
      | some (key, afterKey) =>
        match jsonSkipWs afterKey with
        | ':' :: afterColon =>
          match jsonParseValue fuel afterColon with
          | some (v, afterVal) =>
            match jsonSkipWs afterVal with
            | ',' :: more =>
              match jsonParseMembers fuel more with
              | some (fields, rest) => some ((key, v) :: fields, rest)
              | none => none
            | '}' :: rest => some ([(key, v)], rest)
            | _ => none
          | none => none
        | _ => none
      | none => none
    | _ => none

/-- Parse one or more array elements followed by `]`. -/
def jsonParseElems : Nat → List Char → Option (List JsonValue × List Char)
  | 0, _ => none
  | fuel + 1, cs =>
    match jsonParseValue fuel cs with
    | some (v, afterVal) =>
      match jsonSkipWs afterVal with
      | ',' :: more =>
        match jsonParseElems fuel more with
        | some (elems, rest) => some (v :: elems, rest)
        | none => none
      | ']' :: rest => some ([v], rest)
      | _ => none
    | none => none

end

/-- Parse the first JSON value of a string, as `json.Decoder.Decode` reads a
single value from its stream (trailing bytes are not an error). -/
def parseJson (s : String) : Option JsonValue :=
  match jsonParseValue (s.length + 1) s.toList with
  | some (v, _) => some v
  | none => none

/-- JSON escaping of one character, as Go's marshaller escapes the quote,
backslash and the common control characters in string values. -/
def escapeJsonChar (c : Char) : String :=
  if c = '"' then "\\\""
  else if c = '\\' then "\\\\"
  else if c = '\n' then "\\n"
  else if c = '\t' then "\\t"
  else if c = '\r' then "\\r"
  else String.singleton c

/-- JSON encoding of a string literal. -/
def encodeJsonString (s : String) : String :=
  "\"" ++ String.join (s.toList.map escapeJsonChar) ++ "\""

/-- JSON encoding of a flat object whose values are all strings, keys in the
given order (Go's `json.Marshal` emits struct fields in declaration order). -/
def encodeJsonStrObj (fields : List (String × String)) : String :=
  "\x7b"
    ++ String.intercalate ","
        (fields.map fun kv => encodeJsonString kv.fst ++ ":" ++ encodeJsonString kv.snd)
    ++ "\x7d"

/-- `CredentialsRequest` from `grant.go`: the four string fields sent to the
authorization server, with JSON tags `client_id`, `client_secret`, `audience`,
`grant_type`. -/
structure CredentialsRequest where
  clientID : String
  clientSecret : String
  audience : String
  grantType : String
deriving Repr, DecidableEq

/-- `CLIENT_CREDS_GRANT_TYPE` from `grant.go`. -/
def CLIENT_CREDS_GRANT_TYPE : String := "client_credentials"

/-- `time.Second` in Go: one second expressed in `time.Duration` units
(nanoseconds). -/
def timeSecond : Int := 1000000000

/-- `clientCredsGrant` from `grant.go`: the decoded token-endpoint response.
`expiresIn` is a Go `time.Duration` (nanoseconds). -/
structure clientCredsGrant where
  accessToken : String
  scope : String
  expiresIn : Int
  tokenType : String
deriving Repr, DecidableEq

/-- The zero value a fresh `clientCredsGrant` variable has before decoding. -/
def zeroClientCredsGrant : clientCredsGrant :=
  { accessToken := "", scope := "", expiresIn := 0, tokenType := "" }

/-- Assign one decoded JSON object member to the struct, following Go's
`encoding/json` rules: tag-matching keys must carry the right type, `null`
leaves the field unchanged, unknown keys are ignored. -/
def applyGrantField (g : clientCredsGrant) : String × JsonValue → Except String clientCredsGrant
  | ("access_token", .str s) => .ok { g with accessToken := s }
  | ("access_token", .null) => .ok g
  | ("access_token", _) => .error "json: cannot unmarshal value into field access_token of type string"
  | ("scope", .str s) => .ok { g with scope := s }
  | ("scope", .null) => .ok g
  | ("scope", _) => .error "json: cannot unmarshal value into field scope of type string"
  | ("expires_in", .num n) => .ok { g with expiresIn := n }
  | ("expires_in", .null) => .ok g
  | ("expires_in", _) => .error "json: cannot unmarshal value into field expires_in of type time.Duration"
  | ("token_type", .str s) => .ok { g with tokenType := s }
  | ("token_type", .null) => .ok g
  | ("token_type", _) => .error "json: cannot unmarshal value into field token_type of type string"
  | (_, _) => .ok g

/-- Fold the object members into the struct; a later duplicate key overwrites
an earlier one, as in Go. -/
def applyGrantFields : clientCredsGrant → List (String × JsonValue) → Except String clientCredsGrant
  | g, [] => .ok g
  | g, f :: fs =>
    match applyGrantField g f with
    | .ok g' => applyGrantFields g' fs
    | .error e => .error e

/-- `json.NewDecoder(resp.Body).Decode(&grant)` from `renewGrant`: parse the
body's first JSON value and decode it into a `clientCredsGrant`. -/
def decodeClientCredsGrant (body : String) : Except String clientCredsGrant :=
  match parseJson body with
  | some (.obj fields) => applyGrantFields zeroClientCredsGrant fields
  | some _ => .error "json: cannot unmarshal value into Go value of type clientCredsGrant"
  | none => .error "invalid JSON body"

/-- `grantRequest` from the source (named `Grant` in the packaged variant):
the token-cache state.  The `nowFn` field is modelled by the explicit `now`
argument of the operations. -/
structure grantRequest where
  grant : Option clientCredsGrant
  issuedAt : Int
  tokenURL : String
  credRequest : CredentialsRequest
deriving Repr, DecidableEq

/-- `NewGrant` from `grant.go`: a cache with no stored grant.  (The Go zero
`time.Time` is modelled as instant 0; it is never consulted while `grant` is
absent.) -/
def NewGrant (tokenURL : String) (credRequest : CredentialsRequest) : grantRequest :=
  { grant := none, issuedAt := 0, tokenURL := tokenURL, credRequest := credRequest }

/-- An outbound HTTP POST as handed to `http.Post`. -/
structure HTTPRequest where
  url : String
  contentType : String
  body : String
deriving Repr, DecidableEq

/-- An HTTP response: `resp.StatusCode`, `resp.Status` (the status line text),
and the response body. -/
structure HTTPResponse where
  statusCode : Nat
  status : String
  body : String
deriving Repr, DecidableEq

/-- The transport collaborator: `http.Post`, returning a transport-level error
message or a response. -/
def Transport : Type := HTTPRequest → Except String HTTPResponse

/-- The renewal failure causes of `renewGrant`, each carrying the data the
corresponding Go error message carries. -/
inductive RenewError where
  | serializationErr (msg : String)
  | transportErr (msg : String)
  | unexpectedStatus (status : String) (body : String)
  | decodeErr (msg : String)
deriving Repr, DecidableEq

/-- The Go error message of each renewal failure (`errors.Wrap` renders
"context: cause"; the status branch uses `errors.Errorf`). -/
def RenewError.message : RenewError → String
  | .serializationErr m => "json encode cred request: " ++ m
  | .transportErr m => "cred http request: " ++ m
  | .unexpectedStatus st body => "response status: " ++ st ++ ", body: " ++ body
  | .decodeErr m => "decode grant from response: " ++ m

/-- Whether a renewal failure is the serialization branch. -/
def RenewError.isSerializationErr : RenewError → Bool
  | .serializationErr _ => true
  | _ => false

/-- `json.Marshal(g.credRequest)`: emits the four tagged fields in struct
order.  Go's marshaller errors only on unsupported or cyclic values, neither
of which a struct of four plain strings can contain, so the result is always
`ok`; the `Except` shape keeps the error branch `renewGrant` handles. -/
def marshalCredRequest (c : CredentialsRequest) : Except String String :=
  .ok (encodeJsonStrObj
    [("client_id", c.clientID), ("client_secret", c.clientSecret),
     ("audience", c.audience), ("grant_type", c.grantType)])

/-- The POST `renewGrant` issues: the configured URL, content type
`application/json`, and the serialized credentials request. -/
def renewRequest (g : grantRequest) : HTTPRequest :=
  { url := g.tokenURL
    contentType := "application/json"
    body := encodeJsonStrObj
      [("client_id", g.credRequest.clientID), ("client_secret", g.credRequest.clientSecret),
       ("audience", g.credRequest.audience), ("grant_type", g.credRequest.grantType)] }

/-- `renewGrant` from `grant.go`: serialize, POST, check the status, decode,
scale `expires_in` by `time.Second`, then store the new grant with `issuedAt`
set by `nowFn`.  Returns the updated state (or the failure, leaving the state
untouched as in the source, which assigns only after every error return) and
the list of POSTs handed to the transport. -/
def renewGrant (g : grantRequest) (now : Int) (transport : Transport) :
    Except RenewError grantRequest × List HTTPRequest :=
  match marshalCredRequest g.credRequest with
  | .error e => (.error (.serializationErr e), [])
  | .ok payload =>
    let req : HTTPRequest := { url := g.tokenURL, contentType := "application/json", body := payload }
    match transport req with
    | .error e => (.error (.transportErr e), [req])
    | .ok resp =>
      if resp.statusCode ≠ 200 then
        (.error (.unexpectedStatus resp.status resp.body), [req])
      else
        match decodeClientCredsGrant resp.body with
        | .error e => (.error (.decodeErr e), [req])
        | .ok grant =>
          (.ok { g with
                  issuedAt := now,
                  grant := some { grant with expiresIn := grant.expiresIn * timeSecond } },
           [req])

/-- `needsRenew` from `grant.go`: stale when no grant is stored or
`nowFn().After(issuedAt.Add(expiresIn))` — strictly past the expiry instant. -/
def needsRenew (g : grantRequest) (now : Int) : Bool :=
  match g.grant with
  | none => true
  | some grant => decide (now > g.issuedAt + grant.expiresIn)

/-- The observable outcome of one `GetAccessToken` call: the returned token
(`none` models the nil-pointer dereference Go would take on an absent grant,
which the theorems show unreachable), the returned error cause (`none` on
success), the cache state after the call, and the POSTs issued during it. -/
structure TokenResult where
  token : Option String
  err : Option RenewError
  state : grantRequest
  posts : List HTTPRequest
deriving Repr, DecidableEq

/-- The error `GetAccessToken` returns, rendered as Go's
`errors.Wrap(err, "renew grant")` message. -/
def TokenResult.errorMessage (r : TokenResult) : Option String :=
  r.err.map fun e => "renew grant: " ++ e.message

/-- `GetAccessToken` from `grant.go`: renew when stale, propagating any
renewal failure (returning the empty string alongside it), otherwise return
the stored grant's access token. -/
def GetAccessToken (g : grantRequest) (now : Int) (transport : Transport) : TokenResult :=
  if needsRenew g now then
    match renewGrant g now transport with
    | (.error e, posts) => { token := some "", err := some e, state := g, posts := posts }
    | (.ok g', posts) =>
        { token := g'.grant.map (·.accessToken), err := none, state := g', posts := posts }
  else
    { token := g.grant.map (·.accessToken), err := none, state := g, posts := [] }
/-- Shorthand: whether an `Except` is a success. -/
def exceptIsOk {ε α : Type} : Except ε α → Bool
  | .ok _ => true
  | .error _ => false

/-- Unfolding of `renewGrant`: serialization always succeeds, so the call
always reduces to the transport case analysis on the single request. -/
theorem renewGrant_eq (g : grantRequest) (now : Int) (t : Transport) :
    renewGrant g now t =
      (match t (renewRequest g) with
       | .error e => (.error (.transportErr e), [renewRequest g])
       | .ok resp =>
         if resp.statusCode ≠ 200 then
           (.error (.unexpectedStatus resp.status resp.body), [renewRequest g])
         else
           match decodeClientCredsGrant resp.body with
           | .error e => (.error (.decodeErr e), [renewRequest g])
           | .ok grant =>
             (.ok { g with
                     issuedAt := now,
                     grant := some { grant with expiresIn := grant.expiresIn * timeSecond } },
              [renewRequest g])) := rfl

/-- Every invocation of `renewGrant` hands exactly the one renewal request to
the transport, whatever the outcome. -/
theorem renewGrant_posts (g : grantRequest) (now : Int) (t : Transport) :
    (renewGrant g now t).snd = [renewRequest g] := by
  rw [renewGrant_eq]
  rcases t (renewRequest g) with e | resp
  · rfl
  · dsimp only
    split
    · rfl
    · rcases decodeClientCredsGrant resp.body with e | grant <;> rfl

/-- `renewGrant` never produces the serialization failure. -/
theorem renewGrant_not_serialization (g : grantRequest) (now : Int) (t : Transport)
    (e : RenewError) (h : (renewGrant g now t).fst = .error e) :
    e.isSerializationErr = false := by
  rw [renewGrant_eq] at h
  rcases hr : t (renewRequest g) with e' | resp <;> rw [hr] at h
  · simp at h; subst h; rfl
  · dsimp only at h
    split at h
    · simp at h; subst h; rfl
    · rcases hd : decodeClientCredsGrant resp.body with e' | grant <;> rw [hd] at h
      · simp at h; subst h; rfl
      · simp at h

/-- The staleness predicate, spelled out. -/
theorem needsRenew_iff (g : grantRequest) (now : Int) :
    needsRenew g now = true ↔
      (g.grant = none ∨ ∃ gr, g.grant = some gr ∧ g.issuedAt + gr.expiresIn < now) := by
  unfold needsRenew
  rcases g.grant with _ | gr <;> simp

/-- The POSTs a `GetAccessToken` call issues: one renewal request when stale,
none otherwise. -/
theorem getAccessToken_posts (g : grantRequest) (now : Int) (t : Transport) :
    (GetAccessToken g now t).posts =
      if needsRenew g now then [renewRequest g] else [] := by
  unfold GetAccessToken
  split
  · have hp := renewGrant_posts g now t
    rcases hr : renewGrant g now t with ⟨res, posts⟩
    rw [hr] at hp
    rcases res with e | g' <;> simp_all
  · simp_all

/-- `GetAccessToken` on a stale cache when the renewal fails. -/
theorem getAccessToken_renew_error (g : grantRequest) (now : Int) (t : Transport)
    (e : RenewError) (posts : List HTTPRequest)
    (hn : needsRenew g now = true) (hr : renewGrant g now t = (.error e, posts)) :
    GetAccessToken g now t = { token := some "", err := some e, state := g, posts := posts } := by
  unfold GetAccessToken
  rw [hn, hr]
  rfl

/-- `GetAccessToken` on a stale cache when the renewal succeeds. -/
theorem getAccessToken_renew_ok (g : grantRequest) (now : Int) (t : Transport)
    (g' : grantRequest) (posts : List HTTPRequest)
    (hn : needsRenew g now = true) (hr : renewGrant g now t = (.ok g', posts)) :
    GetAccessToken g now t =
      { token := g'.grant.map (fun x => x.accessToken), err := none,
        state := g', posts := posts } := by
  unfold GetAccessToken
  rw [hn, hr]
  rfl

/-- `GetAccessToken` on a cache that is not stale. -/
theorem getAccessToken_no_renew (g : grantRequest) (now : Int) (t : Transport)
    (hn : needsRenew g now = false) :
    GetAccessToken g now t =
      { token := g.grant.map (fun x => x.accessToken), err := none,
        state := g, posts := [] } := by
  unfold GetAccessToken
  rw [hn]
  simp

/-- The credentials request the repository's tests use. -/
def credRequestFixture : CredentialsRequest :=
  { clientID := "joe-blow-id", clientSecret := "joe-blow-secret",
    audience := "https://api.blowcorp.co/", grantType := CLIENT_CREDS_GRANT_TYPE }

/-- An empty cache, as produced by `NewGrant`. -/
def gEmptyFixture : grantRequest := NewGrant "https://t.auth0.com/oauth/token" credRequestFixture

/-- A cache holding a grant issued at instant 3 that lasts 2 units. -/
def gFreshFixture : grantRequest :=
  { grant := some { accessToken := "tok", scope := "s", expiresIn := 2, tokenType := "Bearer" },
    issuedAt := 3, tokenURL := "https://t.auth0.com/oauth/token", credRequest := credRequestFixture }

/-- A transport whose POST always fails at the transport level. -/
def failTransportFixture : Transport := fun _ => .error "connection refused"

/-- The token-endpoint response body the repository's tests serve. -/
def testGrantResponse : String :=
  "\x7b\"access_token\":\"open-sesame\",\"scope\":\"u-cant-touch-dis\",\"expires_in\":1,\"token_type\":\"Bearer\"\x7d"

/-- A transport answering 200 with the tests' grant body. -/
def okTransportFixture : Transport :=
  fun _ => .ok { statusCode := 200, status := "200 OK", body := testGrantResponse }

/-- C1.  A call to GetAccessToken performs a renewal (hands a request to the
transport) iff no grant is stored or the current time is strictly past
`issuedAt + expires_in`; on any cache state whose grant expires at or after
the current time the call issues no request and returns the cached
`access_token` with the state unchanged. -/
theorem getAccessToken_renews_iff_stale (g : grantRequest) (now : Int) (t : Transport) :
    ((GetAccessToken g now t).posts ≠ [] ↔
        (g.grant = none ∨ ∃ gr, g.grant = some gr ∧ g.issuedAt + gr.expiresIn < now))
    ∧ (∀ gr, g.grant = some gr → now ≤ g.issuedAt + gr.expiresIn →
        GetAccessToken g now t =
          { token := some gr.accessToken, err := none, state := g, posts := [] }) := by
  constructor
  · rw [getAccessToken_posts, ← needsRenew_iff]
    by_cases h : needsRenew g now = true <;> simp [h]
  · intro gr hgr hle
    have hn : needsRenew g now = false := by
      unfold needsRenew
      rw [hgr]
      simpa using hle
    rw [getAccessToken_no_renew g now t hn, hgr]
    rfl

/-- C1 witness: at the exact expiry instant (issued at 3, lasts 2, now 5) the
cached token is returned with no renewal. -/
theorem getAccessToken_renews_iff_stale_witness :
    GetAccessToken gFreshFixture 5 failTransportFixture =
      { token := some "tok", err := none, state := gFreshFixture, posts := [] } :=
  (getAccessToken_renews_iff_stale gFreshFixture 5 failTransportFixture).2
    { accessToken := "tok", scope := "s", expiresIn := 2, tokenType := "Bearer" }
    rfl (by decide)

/-- C2.  On a stale cache (stored grant strictly past expiry) GetAccessToken
issues exactly one renewal request, and when the transport answers 200 with a
decodable body the stored grant is wholly replaced by the decoded one (with
`expires_in` scaled to seconds) and `issuedAt` becomes the injected current
time, independent of every timestamp in the server response. -/
theorem getAccessToken_stale_renews_once (g : grantRequest) (now : Int) (t : Transport)
    (gr : clientCredsGrant) (hgr : g.grant = some gr)
    (hstale : g.issuedAt + gr.expiresIn < now) :
    (GetAccessToken g now t).posts.length = 1
    ∧ (∀ resp grant, t (renewRequest g) = .ok resp → resp.statusCode = 200 →
        decodeClientCredsGrant resp.body = .ok grant →
        (GetAccessToken g now t).err = none
        ∧ (GetAccessToken g now t).state =
            { g with
                issuedAt := now,
                grant := some { grant with expiresIn := grant.expiresIn * timeSecond } }) := by
  have hn : needsRenew g now = true := by
    unfold needsRenew
    rw [hgr]
    simpa using hstale
  constructor
  · rw [getAccessToken_posts, hn]
    rfl
  · intro resp grant hresp h200 hdec
    have hr : renewGrant g now t =
        (.ok { g with
                issuedAt := now,
                grant := some { grant with expiresIn := grant.expiresIn * timeSecond } },
         [renewRequest g]) := by
      rw [renewGrant_eq, hresp]
      simp [h200, hdec]
    rw [getAccessToken_renew_ok g now t _ _ hn hr]
    exact ⟨rfl, rfl⟩

/-- C2 witness: a grant issued at 1 lasting 1 unit, clock at 3, transport
serving the tests' body: one POST, no error, `issuedAt` updated to 3 and the
grant replaced by the decoded one. -/
theorem getAccessToken_stale_renews_once_witness :
    ((GetAccessToken { gFreshFixture with issuedAt := 1, grant := some { accessToken := "old", scope := "s", expiresIn := 1, tokenType := "Bearer" } } 3 okTransportFixture).posts.length = 1)
    ∧ ((GetAccessToken { gFreshFixture with issuedAt := 1, grant := some { accessToken := "old", scope := "s", expiresIn := 1, tokenType := "Bearer" } } 3 okTransportFixture).err = none
    ∧ (GetAccessToken { gFreshFixture with issuedAt := 1, grant := some { accessToken := "old", scope := "s", expiresIn := 1, tokenType := "Bearer" } } 3 okTransportFixture).state =
        { gFreshFixture with
            issuedAt := 3,
            grant := some { accessToken := "open-sesame", scope := "u-cant-touch-dis",
                            expiresIn := 1 * timeSecond, tokenType := "Bearer" } }) :=
  ⟨(getAccessToken_stale_renews_once _ 3 okTransportFixture _ rfl (by decide)).1,
   (getAccessToken_stale_renews_once _ 3 okTransportFixture _ rfl (by decide)).2
     { statusCode := 200, status := "200 OK", body := testGrantResponse }
     { accessToken := "open-sesame", scope := "u-cant-touch-dis", expiresIn := 1, tokenType := "Bearer" }
     rfl rfl rfl⟩

/-- C3.  On an empty cache (no grant stored — the state `NewGrant` builds)
GetAccessToken issues exactly the one renewal POST, addressed to the
configured URL with content type `application/json`. -/
theorem getAccessToken_empty_cache_renews_once (g : grantRequest) (now : Int) (t : Transport)
    (h : g.grant = none) :
    (GetAccessToken g now t).posts = [renewRequest g]
    ∧ (renewRequest g).url = g.tokenURL
    ∧ (renewRequest g).contentType = "application/json"
    ∧ ∀ url cr, (NewGrant url cr).grant = none := by
  refine ⟨?_, rfl, rfl, fun url cr => rfl⟩
  have hn : needsRenew g now = true := by unfold needsRenew; rw [h]
  rw [getAccessToken_posts, hn]
  rfl

/-- C3 witness: the empty fixture cache issues one POST with the configured
URL and JSON content type. -/
theorem getAccessToken_empty_cache_renews_once_witness :
    (GetAccessToken gEmptyFixture 1 failTransportFixture).posts = [renewRequest gEmptyFixture]
    ∧ (renewRequest gEmptyFixture).url = gEmptyFixture.tokenURL
    ∧ (renewRequest gEmptyFixture).contentType = "application/json"
    ∧ ∀ url cr, (NewGrant url cr).grant = none :=
  getAccessToken_empty_cache_renews_once gEmptyFixture 1 failTransportFixture rfl

/-- C4.  Whenever GetAccessToken returns a renewal failure, the token it
returns is the empty string (never a stale or partial token), the cache state
equals the state before the call, and the returned error is the cause wrapped
with the context "renew grant". -/
theorem getAccessToken_error_atomic (g : grantRequest) (now : Int) (t : Transport)
    (e : RenewError) (h : (GetAccessToken g now t).err = some e) :
    (GetAccessToken g now t).token = some ""
    ∧ (GetAccessToken g now t).state = g
    ∧ (GetAccessToken g now t).errorMessage = some ("renew grant: " ++ e.message) := by
  by_cases hn : needsRenew g now = true
  · rcases hr : renewGrant g now t with ⟨res, posts⟩
    rcases res with e' | g'
    · rw [getAccessToken_renew_error g now t e' posts hn hr] at h ⊢
      simp at h
      subst h
      exact ⟨rfl, rfl, rfl⟩
    · rw [getAccessToken_renew_ok g now t g' posts hn hr] at h
      simp at h
  · rw [getAccessToken_no_renew g now t (by simpa using hn)] at h
    simp at h

/-- C4 witness: a transport-level failure on the empty fixture cache returns
the empty token, leaves the state untouched, and wraps the cause. -/
theorem getAccessToken_error_atomic_witness :
    (GetAccessToken gEmptyFixture 1 failTransportFixture).token = some ""
    ∧ (GetAccessToken gEmptyFixture 1 failTransportFixture).state = gEmptyFixture
    ∧ (GetAccessToken gEmptyFixture 1 failTransportFixture).errorMessage =
        some ("renew grant: " ++ (RenewError.transportErr "connection refused").message) :=
  getAccessToken_error_atomic gEmptyFixture 1 failTransportFixture
    (.transportErr "connection refused") rfl

/-- C5.  Round-trip of the tests' response body: the decoded `expires_in` 1
is scaled by `time.Second`, so the stored grant's `expires_in` is one second
(1000000000 duration units, not 1 unit), and its `access_token` is
"open-sesame", which the call returns. -/
theorem renewal_expires_in_roundtrip :
    (GetAccessToken gEmptyFixture 1 okTransportFixture).state.grant =
      some { accessToken := "open-sesame", scope := "u-cant-touch-dis",
             expiresIn := timeSecond, tokenType := "Bearer" }
    ∧ timeSecond = 1000000000
    ∧ timeSecond ≠ 1
    ∧ (GetAccessToken gEmptyFixture 1 okTransportFixture).token = some "open-sesame" :=
  ⟨rfl, rfl, by decide, rfl⟩

/-- C6.  Whenever a renewal is triggered and the transport answers with any
status other than 200, GetAccessToken fails with the unexpected-status error
carrying that response's status text and raw body, and the cache state is
unchanged. -/
theorem getAccessToken_non200_unexpected_status (g : grantRequest) (now : Int)
    (t : Transport) (resp : HTTPResponse) (hn : needsRenew g now = true)
    (hresp : t (renewRequest g) = .ok resp) (hs : resp.statusCode ≠ 200) :
    GetAccessToken g now t =
      { token := some "", err := some (.unexpectedStatus resp.status resp.body),
        state := g, posts := [renewRequest g] } := by
  have hr : renewGrant g now t =
      (.error (.unexpectedStatus resp.status resp.body), [renewRequest g]) := by
    rw [renewGrant_eq, hresp]
    simp [hs]
  exact getAccessToken_renew_error g now t _ _ hn hr

/-- C6 witness: status 500 with body "server error" on the empty fixture
cache. -/
theorem getAccessToken_non200_unexpected_status_witness :
    GetAccessToken gEmptyFixture 1
        (fun _ => .ok { statusCode := 500, status := "500 Internal Server Error", body := "server error" }) =
      { token := some "",
        err := some (.unexpectedStatus "500 Internal Server Error" "server error"),
        state := gEmptyFixture, posts := [renewRequest gEmptyFixture] } :=
  getAccessToken_non200_unexpected_status gEmptyFixture 1
    (fun _ => .ok { statusCode := 500, status := "500 Internal Server Error", body := "server error" })
    { statusCode := 500, status := "500 Internal Server Error", body := "server error" }
    rfl rfl (by decide)

/-- A credentials request whose `grantType` is not the documented constant:
nothing in the code prevents or rewrites it. -/
def badCredRequestFixture : CredentialsRequest :=
  { clientID := "id", clientSecret := "secret", audience := "aud", grantType := "password" }

/-- C7 counterexample: with `grantType` set to "password" the renewal POST's
body carries `"grant_type":"password"`, not the fixed constant
"client_credentials" — the serialized `grant_type` is whatever the supplied
CredentialsRequest holds. -/
theorem wire_grant_type_not_constant_counterexample :
    (GetAccessToken (NewGrant "u" badCredRequestFixture) 0 failTransportFixture).posts.map
        (fun r => r.body)
      = ["\x7b\"client_id\":\"id\",\"client_secret\":\"secret\",\"audience\":\"aud\",\"grant_type\":\"password\"\x7d"]
    ∧ ("\x7b\"client_id\":\"id\",\"client_secret\":\"secret\",\"audience\":\"aud\",\"grant_type\":\"password\"\x7d" : String)
      ≠ encodeJsonStrObj
          [("client_id", "id"), ("client_secret", "secret"),
           ("audience", "aud"), ("grant_type", CLIENT_CREDS_GRANT_TYPE)] :=
  ⟨rfl, by decide⟩

/-- C7 (amended).  Every renewal POST's body is the JSON object with exactly
the keys `client_id`, `client_secret`, `audience`, `grant_type`, valued by the
corresponding fields of the CredentialsRequest supplied at construction; when
that request's `grantType` is the constant `CLIENT_CREDS_GRANT_TYPE` (as the
package documents it should be), `grant_type` carries "client_credentials". -/
theorem wire_format_keys_and_grant_type (g : grantRequest) (now : Int) (t : Transport) :
    (∀ r ∈ (GetAccessToken g now t).posts,
        r.body = encodeJsonStrObj
          [("client_id", g.credRequest.clientID), ("client_secret", g.credRequest.clientSecret),
           ("audience", g.credRequest.audience), ("grant_type", g.credRequest.grantType)])
    ∧ (g.credRequest.grantType = CLIENT_CREDS_GRANT_TYPE →
        ∀ r ∈ (GetAccessToken g now t).posts,
          r.body = encodeJsonStrObj
            [("client_id", g.credRequest.clientID), ("client_secret", g.credRequest.clientSecret),
             ("audience", g.credRequest.audience), ("grant_type", "client_credentials")]) := by
  have hmem : ∀ r ∈ (GetAccessToken g now t).posts, r = renewRequest g := by
    rw [getAccessToken_posts]
    split <;> simp
  refine ⟨fun r hr => ?_, fun hc r hr => ?_⟩
  · rw [hmem r hr]
    rfl
  · rw [hmem r hr]
    show encodeJsonStrObj
        [("client_id", g.credRequest.clientID), ("client_secret", g.credRequest.clientSecret),
         ("audience", g.credRequest.audience), ("grant_type", g.credRequest.grantType)] = _
    rw [hc]
    rfl

/-- C7 witness: the fixture request (built with the constant) posts exactly
the documented body. -/
theorem wire_format_keys_and_grant_type_witness :
    (GetAccessToken gEmptyFixture 1 failTransportFixture).posts = [renewRequest gEmptyFixture]
    ∧ (renewRequest gEmptyFixture).body =
        encodeJsonStrObj
          [("client_id", "joe-blow-id"), ("client_secret", "joe-blow-secret"),
           ("audience", "https://api.blowcorp.co/"), ("grant_type", "client_credentials")] :=
  ⟨rfl,
   (wire_format_keys_and_grant_type gEmptyFixture 1 failTransportFixture).2 rfl
     (renewRequest gEmptyFixture) (by rw [getAccessToken_posts]; exact List.mem_singleton.mpr rfl)⟩

/-- C8.  Serializing the outbound request body succeeds for every
CredentialsRequest (four plain string fields), so no GetAccessToken call ever
fails with the serialization error even though `renewGrant` handles that
branch. -/
theorem serialization_error_unreachable (g : grantRequest) (now : Int) (t : Transport) :
    exceptIsOk (marshalCredRequest g.credRequest) = true
    ∧ (GetAccessToken g now t).err.all (fun e => !e.isSerializationErr) = true := by
  refine ⟨rfl, ?_⟩
  by_cases hn : needsRenew g now = true
  · rcases hr : renewGrant g now t with ⟨res, posts⟩
    rcases res with e | g'
    · rw [getAccessToken_renew_error g now t e posts hn hr]
      have := renewGrant_not_serialization g now t e (by rw [hr])
      simp [Option.all, this]
    · rw [getAccessToken_renew_ok g now t g' posts hn hr]
      rfl
  · rw [getAccessToken_no_renew g now t (by simpa using hn)]
    rfl

/-- C9.  Whenever GetAccessToken returns with an error present, the token
value alongside it is the empty string — never a non-empty token together
with an error. -/
theorem getAccessToken_error_empty_token (g : grantRequest) (now : Int) (t : Transport)
    (h : (GetAccessToken g now t).err.isSome = true) :
    (GetAccessToken g now t).token = some "" := by
  by_cases hn : needsRenew g now = true
  · rcases hr : renewGrant g now t with ⟨res, posts⟩
    rcases res with e | g'
    · rw [getAccessToken_renew_error g now t e posts hn hr]
    · rw [getAccessToken_renew_ok g now t g' posts hn hr] at h
      simp at h
  · rw [getAccessToken_no_renew g now t (by simpa using hn)] at h
    simp at h

/-- C9 witness: the failing-transport call on the empty fixture cache has an
error and the empty token. -/
theorem getAccessToken_error_empty_token_witness :
    (GetAccessToken gEmptyFixture 1 failTransportFixture).token = some "" :=
  getAccessToken_error_empty_token gEmptyFixture 1 failTransportFixture rfl

/-- A transport answering 200 with the well-formed but field-less body. -/
def emptyObjTransportFixture : Transport :=
  fun _ => .ok { statusCode := 200, status := "200 OK", body := "\x7b\x7d" }

/-- C10.  A 200 response whose body is the well-formed JSON object with no
fields decodes without error into the zero-valued grant (empty access token,
zero expires_in), is stored, and GetAccessToken succeeds returning the empty
access-token string — no validation rejects it. -/
theorem empty_object_response_accepted :
    decodeClientCredsGrant "\x7b\x7d" = .ok zeroClientCredsGrant
    ∧ GetAccessToken gEmptyFixture 1 emptyObjTransportFixture =
        { token := some "", err := none,
          state := { gEmptyFixture with issuedAt := 1, grant := some zeroClientCredsGrant },
          posts := [renewRequest gEmptyFixture] } :=
  ⟨rfl, by decide⟩
